import Mathlib

/-!
Shallow embedding of `src/stock_dashboard.py`.

The program's numeric core is two pandas-based rolling-window calculators:

* `calculate_moving_averages` (lines 51-55): attaches two trailing simple
  moving average columns `SMA_{short_window}` and `SMA_{long_window}`,
  each computed as `data['Close'].rolling(window=w).mean()`.
* `calculate_bollinger_bands` (lines 57-63): computes the rolling mean and
  rolling standard deviation of `data['Close']` over `window`, and attaches
  `Bollinger_High = mean + std * num_std_dev` and
  `Bollinger_Low  = mean - std * num_std_dev`.

Modelling choices, all taken from the pandas semantics the source relies on:

* A pandas `Series` cell is a float that may be NaN; we model a cell as
  `Option ℝ` with `none` for NaN, and a series as `List (Option ℝ)`.
* `rolling(window=w)` uses the default `min_periods = w`: the result at
  position `i` is NaN unless the trailing window of positions
  `[i-w+1, i]` physically contains `w` entries (so `i ≥ w-1` and `i` in
  range) and all of them are non-NaN; otherwise `.mean()` divides the
  window sum by `w`.
* `.std()` uses the pandas default `ddof = 1` (sample convention): the
  variance divides by `w - 1`, so for `w = 1` the float computation is
  `0/0 = NaN`; we return `none` in that case.
* Element-wise series arithmetic (`+`, `-`, `* scalar`) propagates NaN.
* A pandas `DataFrame` is modelled as an ordered association list of named
  columns; `data[name] = series` replaces the column when the name exists
  and appends it at the end otherwise, which is `setCol` below.
  (`reset_index` in `load_data` turns the provider's date index into an
  ordinary column; the provider frame is modelled as already carrying its
  columns, so that step is the identity here.)
* `pandas.rolling` raises for `window = 0`; every theorem below assumes
  `1 ≤ w`, so the (arbitrary) value the embedding gives at `w = 0` is
  never relied on.
-/

/-- A pandas series of floats: `none` models NaN. -/
abbrev Series := List (Option ℝ)

/-- The non-NaN values among the trailing window of positions
`[i-w+1, i]` of `xs` (positions clipped to the start of the series),
as pandas `rolling(window=w)` sees them at position `i`. -/
def winVals (xs : Series) (w i : ℕ) : List ℝ :=
  ((xs.take (i+1)).drop (i+1-w)).filterMap id

/-- The value of `series.rolling(window=w).mean()` at position `i`: defined when the
window holds `w` non-NaN observations (pandas default `min_periods = w`),
in which case it is their sum divided by `w`. -/
noncomputable def rollingMeanAt (xs : Series) (w i : ℕ) : Option ℝ :=
  if w ≤ (winVals xs w i).length then some ((winVals xs w i).sum / w) else none

/-- The series `series.rolling(window=w).mean()`, aligned with `xs`. -/
noncomputable def rollingMean (xs : Series) (w : ℕ) : Series :=
  (List.range xs.length).map (fun i => rollingMeanAt xs w i)

/-- The value of `series.rolling(window=w).std()` at position `i` (pandas default
`ddof = 1`): the square root of the sample variance of the window,
dividing by `w - 1`; NaN when the window is incomplete, and also for
`w = 1` where the float computation is `0/0`. -/
noncomputable def rollingStdAt (xs : Series) (w i : ℕ) : Option ℝ :=
  if w ≤ (winVals xs w i).length then
    if w ≤ 1 then none
    else
      some (Real.sqrt
        (((winVals xs w i).map
            (fun x => (x - (winVals xs w i).sum / w)^2)).sum / ((w : ℝ) - 1)))
  else none

/-- The series `series.rolling(window=w).std()`, aligned with `xs`. -/
noncomputable def rollingStd (xs : Series) (w : ℕ) : Series :=
  (List.range xs.length).map (fun i => rollingStdAt xs w i)

/-- NaN-propagating element addition of two pandas series cells. -/
def optAdd : Option ℝ → Option ℝ → Option ℝ
  | some x, some y => some (x + y)
  | _, _ => none

/-- NaN-propagating element subtraction of two pandas series cells. -/
def optSub : Option ℝ → Option ℝ → Option ℝ
  | some x, some y => some (x - y)
  | _, _ => none

/-- NaN-propagating multiplication of a series cell by a scalar on the
right, as in `rolling_std * num_std_dev`. -/
def optScale (k : ℝ) : Option ℝ → Option ℝ
  | some x => some (x * k)
  | none => none

/-- The series `rolling_mean + (rolling_std * num_std_dev)` (line 61). -/
noncomputable def bollingerHighSeries (close : Series) (w : ℕ) (k : ℝ) : Series :=
  List.zipWith optAdd (rollingMean close w) ((rollingStd close w).map (optScale k))

/-- The series `rolling_mean - (rolling_std * num_std_dev)` (line 62). -/
noncomputable def bollingerLowSeries (close : Series) (w : ℕ) (k : ℝ) : Series :=
  List.zipWith optSub (rollingMean close w) ((rollingStd close w).map (optScale k))

/-- A pandas DataFrame: an ordered list of named columns. -/
abbrev DataFrame := List (String × Series)

/-- Column access `data[name]`: the first column carrying `name`. -/
def getCol : DataFrame → String → Option Series
  | [], _ => none
  | (n, c) :: rest, name => if n = name then some c else getCol rest name

/-- Column assignment `data[name] = col`: replace the column when the name is present
(column names in a pandas frame are unique, so replacing the first
occurrence is pandas assignment), append it at the end otherwise. -/
def setCol : DataFrame → String → Series → DataFrame
  | [], name, col => [(name, col)]
  | (n, c) :: rest, name, col =>
      if n = name then (name, col) :: rest else (n, c) :: setCol rest name col

/-- The function `calculate_moving_averages` (lines 51-55): attaches
`SMA_{short_window}` and then `SMA_{long_window}`, each the rolling mean
of the `Close` column, which is re-read for the second assignment exactly
as the Python executes line 54 after line 53. -/
noncomputable def calculate_moving_averages (data : DataFrame)
    (short_window long_window : ℕ) : DataFrame :=
  let df1 := setCol data ("SMA_" ++ toString short_window)
      (rollingMean ((getCol data "Close").getD []) short_window)
  setCol df1 ("SMA_" ++ toString long_window)
      (rollingMean ((getCol df1 "Close").getD []) long_window)

/-- The function `calculate_bollinger_bands` (lines 57-63): computes the rolling mean
and rolling std of `Close`, then attaches `Bollinger_High` and
`Bollinger_Low`. -/
noncomputable def calculate_bollinger_bands (data : DataFrame)
    (window : ℕ) (num_std_dev : ℝ) : DataFrame :=
  let close := (getCol data "Close").getD []
  setCol (setCol data "Bollinger_High" (bollingerHighSeries close window num_std_dev))
    "Bollinger_Low" (bollingerLowSeries close window num_std_dev)

/-- The outcome of `yf.download`: a frame, or a raised exception caught by
`load_data`'s `except` branch. -/
inductive FetchResult where
  | ok : DataFrame → FetchResult
  | fetchError : String → FetchResult

/-- The pandas `data.empty` test for a DataFrame: no rows (every column empty) or no
columns at all. -/
def emptyDF (df : DataFrame) : Bool :=
  df.all (fun p => p.2.isEmpty)

/-- The function `load_data` (lines 34-48) applied to the provider's outcome: `None`
when the download raised or returned an empty frame, the frame otherwise
(`reset_index` is the identity in this model, see the header). -/
def load_data : FetchResult → Option DataFrame
  | FetchResult.ok d => if emptyDF d then none else some d
  | FetchResult.fetchError _ => none

/-- What a run of the main script body (lines 66-111) produces: either the
rendered analysis of the fully derived frame, or the warning of line 111. -/
inductive RenderOutput where
  | charts : DataFrame → RenderOutput
  | warning : String → RenderOutput

/-- Main application logic (lines 66-111): when `load_data` yields a frame,
both calculators run with their default parameters (lines 73-74) and the
charts render; otherwise the warning of line 111 is shown and no
calculator is invoked. -/
noncomputable def mainLogic (r : FetchResult) : RenderOutput :=
  match load_data r with
  | some data =>
      RenderOutput.charts (calculate_bollinger_bands (calculate_moving_averages data 20 50) 20 2)
  | none =>
      RenderOutput.warning "Could not load data. Please check the ticker symbol and date range."

/-! ### Basic lemmas about the rolling-window machinery -/

lemma filterMap_id_map_some (l : List ℝ) : (l.map some).filterMap id = l := by
  simp

lemma filterMap_id_cons (a : ℝ) (l : List (Option ℝ)) :
    List.filterMap id (some a :: l) = a :: List.filterMap id l := by
  simp

/-- On NaN-free data the window values are just the slice of the price
series at positions `[i-w+1, i]`. -/
lemma winVals_map_some (ps : List ℝ) (w i : ℕ) :
    winVals (ps.map some) w i = (ps.take (i+1)).drop (i+1-w) := by
  unfold winVals
  rw [← List.map_take, ← List.map_drop, filterMap_id_map_some]

lemma length_winVals_map_some (ps : List ℝ) (w i : ℕ) (hi : i < ps.length) :
    (winVals (ps.map some) w i).length = min w (i+1) := by
  rw [winVals_map_some, List.length_drop, List.length_take]
  omega

lemma rollingMeanAt_defined (ps : List ℝ) (w i : ℕ) (hi : i < ps.length)
    (hwi : w ≤ i + 1) :
    rollingMeanAt (ps.map some) w i
      = some (((ps.take (i+1)).drop (i+1-w)).sum / w) := by
  unfold rollingMeanAt
  rw [winVals_map_some, if_pos]
  rw [← winVals_map_some ps w i, length_winVals_map_some ps w i hi]
  omega

lemma rollingMeanAt_undefined (xs : Series) (w i : ℕ) (hwi : i + 1 < w) :
    rollingMeanAt xs w i = none := by
  unfold rollingMeanAt
  rw [if_neg]
  intro h
  have h1 : (winVals xs w i).length ≤ ((xs.take (i+1)).drop (i+1-w)).length :=
    List.length_filterMap_le _ _
  rw [List.length_drop, List.length_take] at h1
  omega

lemma length_rollingMean (xs : Series) (w : ℕ) :
    (rollingMean xs w).length = xs.length := by
  simp [rollingMean]

lemma getD_map_range (f : ℕ → Option ℝ) (n i : ℕ) (hi : i < n) :
    ((List.range n).map f).getD i none = f i := by
  rw [List.getD_eq_getElem?_getD, List.getElem?_map, List.getElem?_range hi]
  rfl

lemma rollingMean_getD (xs : Series) (w i : ℕ) (hi : i < xs.length) :
    (rollingMean xs w).getD i none = rollingMeanAt xs w i :=
  getD_map_range _ _ _ hi

lemma rollingMeanAt_isSome (ps : List ℝ) (w i : ℕ) (hi : i < ps.length) :
    (rollingMeanAt (ps.map some) w i).isSome = decide (w ≤ i + 1) := by
  by_cases h : w ≤ i + 1
  · rw [rollingMeanAt_defined ps w i hi h]
    simp [h]
  · rw [rollingMeanAt_undefined _ w i (by omega)]
    simp [h]

/-! ### C1: the SMA is the trailing arithmetic mean -/

/-- C1: for every price series and positive window `w`, the SMA at each
position `i ≥ w - 1` is the arithmetic mean of the closing prices at
positions `[i-w+1, i]` (a slice of exactly `w` prices, summed and divided
by `w`), and is undefined at every `i < w - 1`; for `[10, 11, 12, 13, 14]`
with window 3 the SMA is `[none, none, 11, 12, 13]`. -/
theorem sma_trailing_mean (ps : List ℝ) (w : ℕ) (hw : 1 ≤ w) (i : ℕ)
    (hi : i < ps.length) :
    (w - 1 ≤ i →
      ((ps.take (i+1)).drop (i+1-w)).length = w ∧
      (rollingMean (ps.map some) w).getD i none
        = some (((ps.take (i+1)).drop (i+1-w)).sum / w)) ∧
    (i < w - 1 → (rollingMean (ps.map some) w).getD i none = none) ∧
    rollingMean (([10, 11, 12, 13, 14] : List ℝ).map some) 3
      = [none, none, some 11, some 12, some 13] := by
  have hlen : i < (ps.map some).length := by simpa using hi
  refine ⟨?_, ?_, ?_⟩
  · intro h
    constructor
    · rw [List.length_drop, List.length_take]; omega
    · rw [rollingMean_getD _ w i hlen, rollingMeanAt_defined ps w i hi (by omega)]
  · intro h
    rw [rollingMean_getD _ w i hlen, rollingMeanAt_undefined _ w i (by omega)]
  · norm_num [rollingMean, rollingMeanAt, winVals, List.range_succ,
      filterMap_id_cons]

/-- Witness for C1 at the concrete scenario of the claim. -/
theorem sma_trailing_mean_witness :
    rollingMean (([10, 11, 12, 13, 14] : List ℝ).map some) 3
      = [none, none, some 11, some 12, some 13] :=
  (sma_trailing_mean [10, 11, 12, 13, 14] 3 (by norm_num) 2 (by norm_num)).2.2

/-! ### C2: exactly `max(0, n - w + 1)` defined values, all at the tail -/

lemma countP_range_ge (w n : ℕ) (hw : 1 ≤ w) :
    (List.range n).countP (fun i => w ≤ i + 1) = n + 1 - w := by
  induction n with
  | zero => simp; omega
  | succ n ih =>
      rw [List.range_succ, List.countP_append, ih]
      by_cases h : w ≤ n + 1
      · simp [List.countP_cons, h]
        omega
      · simp [List.countP_cons, h]
        omega

/-- C2: for every window `w ≥ 1` and price series of length `n`, the SMA
series is aligned with the input, is defined exactly at positions
`w-1 .. n-1`, and has exactly `n + 1 - w` (i.e. `max(0, n - w + 1)`)
defined values — in particular none at all when `w > n`. -/
theorem sma_defined_count (ps : List ℝ) (w : ℕ) (hw : 1 ≤ w) :
    (rollingMean (ps.map some) w).length = ps.length ∧
    (∀ i, i < ps.length →
      (((rollingMean (ps.map some) w).getD i none).isSome = true ↔ w - 1 ≤ i)) ∧
    (rollingMean (ps.map some) w).countP (fun o => o.isSome)
      = ps.length + 1 - w := by
  have hl : (ps.map some).length = ps.length := by simp
  refine ⟨by rw [length_rollingMean, hl], ?_, ?_⟩
  · intro i hi
    rw [rollingMean_getD _ w i (by simpa using hi),
      rollingMeanAt_isSome ps w i hi]
    simp only [decide_eq_true_eq]
    omega
  · unfold rollingMean
    rw [List.countP_map, hl]
    have hc : ∀ i ∈ List.range ps.length,
        (((fun o : Option ℝ => o.isSome) ∘ fun i => rollingMeanAt (ps.map some) w i) i = true
          ↔ (fun i => decide (w ≤ i + 1)) i = true) := by
      intro i hi
      rw [List.mem_range] at hi
      simp only [Function.comp]
      rw [rollingMeanAt_isSome ps w i hi]
    rw [List.countP_congr hc, countP_range_ge w ps.length hw]

/-- Witness for C2 at `ps = [10, 11, 12]`, `w = 2`. -/
theorem sma_defined_count_witness :
    (rollingMean (([10, 11, 12] : List ℝ).map some) 2).length = 3 ∧
    ((((rollingMean (([10, 11, 12] : List ℝ).map some) 2).getD 1 none).isSome = true)
      ↔ (2 - 1 ≤ 1)) ∧
    (rollingMean (([10, 11, 12] : List ℝ).map some) 2).countP (fun o => o.isSome)
      = 3 + 1 - 2 := by
  obtain ⟨h1, h2, h3⟩ := sma_defined_count [10, 11, 12] 2 (by norm_num)
  exact ⟨h1, h2 1 (by norm_num), h3⟩

/-! ### C5: SMA with window 1 is the identity -/

lemma slice_single (ps : List ℝ) (i : ℕ) (hi : i < ps.length) :
    (ps.take (i+1)).drop i = [ps[i]] := by
  have h1 : i < (ps.take (i+1)).length := by
    rw [List.length_take]; omega
  rw [List.drop_eq_getElem_cons h1]
  simp [List.getElem_take, List.drop_take]

/-- C5: the simple moving average with window size 1 equals the source
closing-price series exactly, element-wise at every position. -/
theorem sma_window_one_id (ps : List ℝ) :
    rollingMean (ps.map some) 1 = ps.map some := by
  apply List.ext_getElem
  · simp [length_rollingMean]
  intro i h1 h2
  have hi : i < ps.length := by simpa using h2
  have hr : i < (List.range (ps.map some).length).length := by
    simpa [rollingMean] using h1
  unfold rollingMean
  rw [List.getElem_map, List.getElem_range]
  rw [rollingMeanAt_defined ps 1 i hi (by omega)]
  rw [show i + 1 - 1 = i from rfl, slice_single ps i hi]
  simp

/-! ### DataFrame column lemmas -/

lemma getCol_setCol_self (df : DataFrame) (n : String) (c : Series) :
    getCol (setCol df n c) n = some c := by
  induction df with
  | nil => simp [setCol, getCol]
  | cons p rest ih =>
      obtain ⟨m, d⟩ := p
      by_cases hmn : m = n
      · subst hmn
        simp [setCol, getCol]
      · simp [setCol, getCol, hmn, ih]

lemma getCol_setCol_ne (df : DataFrame) (n m : String) (c : Series)
    (h : m ≠ n) : getCol (setCol df n c) m = getCol df m := by
  have hnm : ¬ n = m := fun hh => h hh.symm
  induction df with
  | nil => simp [setCol, getCol, hnm]
  | cons p rest ih =>
      obtain ⟨q, d⟩ := p
      by_cases hqn : q = n
      · subst hqn
        simp [setCol, getCol, hnm]
      · simp [setCol, getCol, hqn, ih]

lemma setCol_setCol_same (df : DataFrame) (n : String) (c d : Series) :
    setCol (setCol df n c) n d = setCol df n d := by
  induction df with
  | nil => simp [setCol]
  | cons p rest ih =>
      obtain ⟨q, e⟩ := p
      by_cases hqn : q = n
      · subst hqn
        simp [setCol]
      · simp [setCol, hqn, ih]

lemma setCol_getCol_eq (df : DataFrame) (n : String) (c : Series)
    (h : getCol df n = some c) : setCol df n c = df := by
  induction df with
  | nil => simp [getCol] at h
  | cons p rest ih =>
      obtain ⟨q, e⟩ := p
      by_cases hqn : q = n
      · subst hqn
        simp [getCol] at h
        simp [setCol, h]
      · simp [getCol, hqn] at h
        simp [setCol, hqn, ih h]

lemma close_ne_sma (t : String) : "Close" ≠ "SMA_" ++ t := by
  intro h
  have hd := congrArg String.data h
  rw [String.data_append] at hd
  simp [String.data] at hd

lemma ma_unfold (df : DataFrame) (s l : ℕ) :
    calculate_moving_averages df s l
      = setCol (setCol df ("SMA_" ++ toString s)
            (rollingMean ((getCol df "Close").getD []) s))
          ("SMA_" ++ toString l)
          (rollingMean ((getCol df "Close").getD []) l) := by
  simp only [calculate_moving_averages]
  rw [getCol_setCol_ne _ _ _ _ (close_ne_sma _)]

lemma bb_unfold (df : DataFrame) (w : ℕ) (k : ℝ) :
    calculate_bollinger_bands df w k
      = setCol (setCol df "Bollinger_High"
            (bollingerHighSeries ((getCol df "Close").getD []) w k))
          "Bollinger_Low"
          (bollingerLowSeries ((getCol df "Close").getD []) w k) := rfl

lemma close_ma (df : DataFrame) (s l : ℕ) :
    getCol (calculate_moving_averages df s l) "Close" = getCol df "Close" := by
  rw [ma_unfold,
    getCol_setCol_ne _ _ _ _ (close_ne_sma _),
    getCol_setCol_ne _ _ _ _ (close_ne_sma _)]

lemma close_bb (df : DataFrame) (w : ℕ) (k : ℝ) :
    getCol (calculate_bollinger_bands df w k) "Close" = getCol df "Close" := by
  rw [bb_unfold,
    getCol_setCol_ne _ _ _ _ (by decide : ("Close" : String) ≠ "Bollinger_Low"),
    getCol_setCol_ne _ _ _ _ (by decide : ("Close" : String) ≠ "Bollinger_High")]

lemma ma_long_col (df : DataFrame) (s l : ℕ) :
    getCol (calculate_moving_averages df s l) ("SMA_" ++ toString l)
      = some (rollingMean ((getCol df "Close").getD []) l) := by
  rw [ma_unfold]
  exact getCol_setCol_self _ _ _

lemma ma_short_col (df : DataFrame) (s l : ℕ)
    (h : ("SMA_" ++ toString s) ≠ ("SMA_" ++ toString l)) :
    getCol (calculate_moving_averages df s l) ("SMA_" ++ toString s)
      = some (rollingMean ((getCol df "Close").getD []) s) := by
  rw [ma_unfold, getCol_setCol_ne _ _ _ _ h]
  exact getCol_setCol_self _ _ _

lemma bb_high_col (df : DataFrame) (w : ℕ) (k : ℝ) :
    getCol (calculate_bollinger_bands df w k) "Bollinger_High"
      = some (bollingerHighSeries ((getCol df "Close").getD []) w k) := by
  rw [bb_unfold,
    getCol_setCol_ne _ _ _ _ (by decide : ("Bollinger_High" : String) ≠ "Bollinger_Low")]
  exact getCol_setCol_self _ _ _

lemma bb_low_col (df : DataFrame) (w : ℕ) (k : ℝ) :
    getCol (calculate_bollinger_bands df w k) "Bollinger_Low"
      = some (bollingerLowSeries ((getCol df "Close").getD []) w k) := by
  rw [bb_unfold]
  exact getCol_setCol_self _ _ _

/-! ### C6: the calculators read an immutable snapshot of the price series -/

/-- C6: both calculators leave the input price series (the `Close` column)
untouched, and the derived series they attach are computed fresh from that
snapshot alone: two frames agreeing on `Close` get identical derived
columns. -/
theorem calculators_pure (df dg : DataFrame) (s l w : ℕ) (k : ℝ) :
    getCol (calculate_moving_averages df s l) "Close" = getCol df "Close" ∧
    getCol (calculate_bollinger_bands df w k) "Close" = getCol df "Close" ∧
    (getCol df "Close" = getCol dg "Close" →
      getCol (calculate_moving_averages df s l) ("SMA_" ++ toString s)
        = getCol (calculate_moving_averages dg s l) ("SMA_" ++ toString s) ∧
      getCol (calculate_moving_averages df s l) ("SMA_" ++ toString l)
        = getCol (calculate_moving_averages dg s l) ("SMA_" ++ toString l) ∧
      getCol (calculate_bollinger_bands df w k) "Bollinger_High"
        = getCol (calculate_bollinger_bands dg w k) "Bollinger_High" ∧
      getCol (calculate_bollinger_bands df w k) "Bollinger_Low"
        = getCol (calculate_bollinger_bands dg w k) "Bollinger_Low") := by
  refine ⟨close_ma df s l, close_bb df w k, ?_⟩
  intro hC
  have hD : (getCol df "Close").getD [] = (getCol dg "Close").getD [] := by
    rw [hC]
  refine ⟨?_, ?_, ?_, ?_⟩
  · by_cases hAB : ("SMA_" ++ toString s) = ("SMA_" ++ toString l)
    · rw [hAB, ma_long_col, ma_long_col, hD]
    · rw [ma_short_col df s l hAB, ma_short_col dg s l hAB, hD]
  · rw [ma_long_col, ma_long_col, hD]
  · rw [bb_high_col, bb_high_col, hD]
  · rw [bb_low_col, bb_low_col, hD]

/-- Witness for C6 on a one-row frame. -/
theorem calculators_pure_witness :
    getCol (calculate_moving_averages [("Close", [some (1:ℝ)])] 1 2) "Close"
      = getCol [("Close", [some (1:ℝ)])] "Close" ∧
    getCol (calculate_bollinger_bands [("Close", [some (1:ℝ)])] 2 2) "Close"
      = getCol [("Close", [some (1:ℝ)])] "Close" ∧
    getCol (calculate_moving_averages [("Close", [some (1:ℝ)])] 1 2) ("SMA_" ++ toString 1)
      = getCol (calculate_moving_averages [("Close", [some (1:ℝ)])] 1 2) ("SMA_" ++ toString 1) := by
  obtain ⟨h1, h2, h3⟩ :=
    calculators_pure [("Close", [some (1:ℝ)])] [("Close", [some (1:ℝ)])] 1 2 2 2
  exact ⟨h1, h2, (h3 rfl).1⟩

/-! ### C7: running a calculator twice gives bit-identical output -/

/-- C7: both calculators are idempotent: a second run with the same
parameters recomputes every derived column from the unchanged `Close`
snapshot and overwrites it with the identical series, so the resulting
frame is bit-identical. -/
theorem calculators_idempotent (df : DataFrame) (s l w : ℕ) (k : ℝ) :
    calculate_moving_averages (calculate_moving_averages df s l) s l
      = calculate_moving_averages df s l ∧
    calculate_bollinger_bands (calculate_bollinger_bands df w k) w k
      = calculate_bollinger_bands df w k := by
  constructor
  · have hc := close_ma df s l
    rw [ma_unfold (calculate_moving_averages df s l) s l, hc]
    by_cases hAB : ("SMA_" ++ toString s) = ("SMA_" ++ toString l)
    · rw [hAB, setCol_setCol_same]
      conv_lhs => rw [ma_unfold df s l, hAB, setCol_setCol_same]
      rw [setCol_setCol_same]
      conv_rhs => rw [ma_unfold df s l, hAB, setCol_setCol_same]
    · have hA : getCol (calculate_moving_averages df s l) ("SMA_" ++ toString s)
          = some (rollingMean ((getCol df "Close").getD []) s) :=
        ma_short_col df s l hAB
      have hB : getCol (calculate_moving_averages df s l) ("SMA_" ++ toString l)
          = some (rollingMean ((getCol df "Close").getD []) l) :=
        ma_long_col df s l
      rw [setCol_getCol_eq _ _ _ hA, setCol_getCol_eq _ _ _ hB]
  · have hc := close_bb df w k
    rw [bb_unfold (calculate_bollinger_bands df w k) w k, hc]
    have hH : getCol (calculate_bollinger_bands df w k) "Bollinger_High"
        = some (bollingerHighSeries ((getCol df "Close").getD []) w k) :=
      bb_high_col df w k
    have hL : getCol (calculate_bollinger_bands df w k) "Bollinger_Low"
        = some (bollingerLowSeries ((getCol df "Close").getD []) w k) :=
      bb_low_col df w k
    rw [setCol_getCol_eq _ _ _ hH, setCol_getCol_eq _ _ _ hL]

/-! ### Pointwise form of the Bollinger band series -/

lemma optAdd_none (a : Option ℝ) : optAdd a none = none := by
  cases a <;> rfl

lemma optSub_none (a : Option ℝ) : optSub a none = none := by
  cases a <;> rfl

lemma bollingerHigh_map (xs : Series) (w : ℕ) (k : ℝ) :
    bollingerHighSeries xs w k
      = (List.range xs.length).map
          (fun i => optAdd (rollingMeanAt xs w i) (optScale k (rollingStdAt xs w i))) := by
  unfold bollingerHighSeries rollingMean rollingStd
  rw [List.map_map, List.zipWith_map, List.zipWith_same]
  simp [Function.comp]

lemma bollingerLow_map (xs : Series) (w : ℕ) (k : ℝ) :
    bollingerLowSeries xs w k
      = (List.range xs.length).map
          (fun i => optSub (rollingMeanAt xs w i) (optScale k (rollingStdAt xs w i))) := by
  unfold bollingerLowSeries rollingMean rollingStd
  rw [List.map_map, List.zipWith_map, List.zipWith_same]
  simp [Function.comp]

lemma bollingerHigh_getD (xs : Series) (w : ℕ) (k : ℝ) (i : ℕ) (hi : i < xs.length) :
    (bollingerHighSeries xs w k).getD i none
      = optAdd (rollingMeanAt xs w i) (optScale k (rollingStdAt xs w i)) := by
  rw [bollingerHigh_map]
  exact getD_map_range _ _ _ hi

lemma bollingerLow_getD (xs : Series) (w : ℕ) (k : ℝ) (i : ℕ) (hi : i < xs.length) :
    (bollingerLowSeries xs w k).getD i none
      = optSub (rollingMeanAt xs w i) (optScale k (rollingStdAt xs w i)) := by
  rw [bollingerLow_map]
  exact getD_map_range _ _ _ hi

lemma rollingStdAt_window_one (xs : Series) (w i : ℕ) (hw : w ≤ 1) :
    rollingStdAt xs w i = none := by
  unfold rollingStdAt
  by_cases h : w ≤ (winVals xs w i).length <;> simp [h, hw]

lemma rollingStdAt_undefined (xs : Series) (w i : ℕ) (hwi : i + 1 < w) :
    rollingStdAt xs w i = none := by
  unfold rollingStdAt
  rw [if_neg]
  intro h
  have h1 : (winVals xs w i).length ≤ ((xs.take (i+1)).drop (i+1-w)).length :=
    List.length_filterMap_le _ _
  rw [List.length_drop, List.length_take] at h1
  omega

lemma rollingStdAt_defined (ps : List ℝ) (w i : ℕ) (hi : i < ps.length)
    (hw2 : 2 ≤ w) (hwi : w ≤ i + 1) :
    rollingStdAt (ps.map some) w i
      = some (Real.sqrt
          ((((ps.take (i+1)).drop (i+1-w)).map
              (fun x => (x - ((ps.take (i+1)).drop (i+1-w)).sum / w)^2)).sum
            / ((w : ℝ) - 1))) := by
  unfold rollingStdAt
  rw [winVals_map_some, if_pos, if_neg (by omega)]
  rw [← winVals_map_some ps w i, length_winVals_map_some ps w i hi]
  omega

lemma rollingStdAt_sqrt (xs : Series) (w i : ℕ) (σ : ℝ)
    (h : rollingStdAt xs w i = some σ) : 0 ≤ σ := by
  unfold rollingStdAt at h
  split_ifs at h
  rw [Option.some_inj] at h
  rw [← h]
  exact Real.sqrt_nonneg _

/-! ### C9: window-1 Bollinger bands are everywhere undefined -/

/-- C9: with window size 1 the sample standard deviation (`ddof = 1`)
divides by zero, so both Bollinger bands are NaN at every position, even
though the window-1 rolling mean is defined everywhere. -/
theorem bollinger_window_one (ps : List ℝ) (k : ℝ) (i : ℕ) (hi : i < ps.length) :
    (bollingerHighSeries (ps.map some) 1 k).getD i none = none ∧
    (bollingerLowSeries (ps.map some) 1 k).getD i none = none ∧
    (rollingMeanAt (ps.map some) 1 i).isSome = true := by
  have hlen : i < (ps.map some).length := by simpa using hi
  refine ⟨?_, ?_, ?_⟩
  · rw [bollingerHigh_getD _ _ _ _ hlen,
      rollingStdAt_window_one _ 1 i (by omega)]
    exact optAdd_none _
  · rw [bollingerLow_getD _ _ _ _ hlen,
      rollingStdAt_window_one _ 1 i (by omega)]
    exact optSub_none _
  · rw [rollingMeanAt_isSome ps 1 i hi]
    simp

/-- Witness for C9 at `ps = [7]`, `k = 2`, `i = 0`. -/
theorem bollinger_window_one_witness :
    (bollingerHighSeries (([7] : List ℝ).map some) 1 2).getD 0 none = none ∧
    (bollingerLowSeries (([7] : List ℝ).map some) 1 2).getD 0 none = none ∧
    (rollingMeanAt (([7] : List ℝ).map some) 1 0).isSome = true :=
  bollinger_window_one [7] 2 0 (by norm_num)

/-! ### C3: the Bollinger bands are mean plus/minus `k` sample deviations -/

/-- C3: at every defined position the upper band is `μ + k·σ` and the
lower band is `μ - k·σ`, where `μ` is the trailing rolling mean and `σ`
the trailing rolling sample standard deviation (dividing by `w - 1`) over
positions `[i-w+1, i]`; both bands are undefined for `i < w - 1`, and a
defined position forces `w ≥ 2` and `i ≥ w - 1`. -/
theorem bollinger_band_formula (ps : List ℝ) (w : ℕ) (k : ℝ) (hw : 1 ≤ w)
    (i : ℕ) (hi : i < ps.length) :
    (i < w - 1 →
      (bollingerHighSeries (ps.map some) w k).getD i none = none ∧
      (bollingerLowSeries (ps.map some) w k).getD i none = none) ∧
    ((bollingerHighSeries (ps.map some) w k).getD i none ≠ none →
      2 ≤ w ∧ w - 1 ≤ i) ∧
    (2 ≤ w → w - 1 ≤ i →
      (bollingerHighSeries (ps.map some) w k).getD i none
        = some (((ps.take (i+1)).drop (i+1-w)).sum / w
            + k * Real.sqrt
                ((((ps.take (i+1)).drop (i+1-w)).map
                    (fun x => (x - ((ps.take (i+1)).drop (i+1-w)).sum / w)^2)).sum
                  / ((w : ℝ) - 1))) ∧
      (bollingerLowSeries (ps.map some) w k).getD i none
        = some (((ps.take (i+1)).drop (i+1-w)).sum / w
            - k * Real.sqrt
                ((((ps.take (i+1)).drop (i+1-w)).map
                    (fun x => (x - ((ps.take (i+1)).drop (i+1-w)).sum / w)^2)).sum
                  / ((w : ℝ) - 1)))) := by
  have hlen : i < (ps.map some).length := by simpa using hi
  refine ⟨?_, ?_, ?_⟩
  · intro h
    rw [bollingerHigh_getD _ _ _ _ hlen, bollingerLow_getD _ _ _ _ hlen,
      rollingStdAt_undefined _ w i (by omega)]
    exact ⟨optAdd_none _, optSub_none _⟩
  · intro h
    by_contra hc
    rw [bollingerHigh_getD _ _ _ _ hlen] at h
    rcases Nat.lt_or_ge w 2 with h2 | h2
    · rw [rollingStdAt_window_one _ w i (by omega)] at h
      exact h (optAdd_none _)
    · have hwi : i + 1 < w := by omega
      rw [rollingStdAt_undefined _ w i hwi] at h
      exact h (optAdd_none _)
  · intro h2 hwi
    rw [bollingerHigh_getD _ _ _ _ hlen, bollingerLow_getD _ _ _ _ hlen,
      rollingMeanAt_defined ps w i hi (by omega),
      rollingStdAt_defined ps w i hi h2 (by omega)]
    unfold optAdd optSub optScale
    constructor
    · rw [Option.some_inj]
      ring
    · rw [Option.some_inj]
      ring

/-- Witness for C3 at `ps = [1, 3]`, `w = 2`, `k = 2`, `i = 0` (undefined
prefix) together with the defined-position formula at `i = 1`. -/
theorem bollinger_band_formula_witness :
    ((bollingerHighSeries (([1, 3] : List ℝ).map some) 2 2).getD 0 none = none ∧
      (bollingerLowSeries (([1, 3] : List ℝ).map some) 2 2).getD 0 none = none) ∧
    (bollingerHighSeries (([1, 3] : List ℝ).map some) 2 2).getD 1 none
      = some ((([1, 3] : List ℝ).sum / 2)
          + 2 * Real.sqrt
              (((([1, 3] : List ℝ).map
                  (fun x => (x - ([1, 3] : List ℝ).sum / 2)^2)).sum) / ((2 : ℝ) - 1))) := by
  constructor
  · exact (bollinger_band_formula [1, 3] 2 2 (by norm_num) 0 (by norm_num)).1 (by norm_num)
  · have h := ((bollinger_band_formula [1, 3] 2 2 (by norm_num) 1 (by norm_num)).2.2
      (by norm_num) (by norm_num)).1
    simpa using h

/-! ### C8: empty or failed provider result is handled as no data -/

/-- C8: when the provider raises or returns an empty frame, `load_data`
returns `None`, the main logic takes the warning branch of line 111 (so
neither calculator is invoked), and the user-visible warning is shown. -/
theorem no_data_branch (r : FetchResult)
    (h : (∃ e, r = FetchResult.fetchError e) ∨
      (∃ d, r = FetchResult.ok d ∧ emptyDF d = true)) :
    load_data r = none ∧
    mainLogic r = RenderOutput.warning
      "Could not load data. Please check the ticker symbol and date range." := by
  have hn : load_data r = none := by
    rcases h with ⟨e, rfl⟩ | ⟨d, rfl, hd⟩
    · rfl
    · simp [load_data, hd]
  refine ⟨hn, ?_⟩
  unfold mainLogic
  rw [hn]

/-- Witness for C8 at an empty provider frame. -/
theorem no_data_branch_witness :
    load_data (FetchResult.ok []) = none ∧
    mainLogic (FetchResult.ok []) = RenderOutput.warning
      "Could not load data. Please check the ticker symbol and date range." :=
  no_data_branch (FetchResult.ok []) (Or.inr ⟨[], rfl, rfl⟩)

/-! ### C10: which columns the calculators leave untouched -/

/-- C10 fails as stated: a pre-existing column that happens to carry a
derived name is overwritten. Input frame `[("Close", [1]), ("SMA_1", [99])]`
with `short_window = long_window = 1`: the pre-existing `SMA_1` column
changes from `[99]` to the recomputed `[1]`. -/
theorem preexisting_column_overwritten :
    getCol (calculate_moving_averages
        [("Close", [some (1:ℝ)]), ("SMA_1", [some 99])] 1 1) "SMA_1"
      ≠ getCol [("Close", [some (1:ℝ)]), ("SMA_1", [some 99])] "SMA_1" := by
  have hA : ("SMA_" ++ toString 1) = "SMA_1" := by decide
  rw [ma_unfold, hA]
  intro h
  rw [setCol_setCol_same, getCol_setCol_self] at h
  have hclose : getCol [("Close", [some (1:ℝ)]), ("SMA_1", [some 99])] "Close"
      = some [some 1] := by
    simp [getCol]
  have hsma : getCol [("Close", [some (1:ℝ)]), ("SMA_1", [some 99])] "SMA_1"
      = some [some 99] := by
    simp [getCol, show ¬ ("Close" : String) = "SMA_1" from by decide]
  rw [hclose, hsma, Option.some_inj] at h
  rw [Option.getD_some] at h
  have h1 : rollingMean [some (1:ℝ)] 1 = [some 1] := by
    norm_num [rollingMean, rollingMeanAt, winVals, List.range_succ, filterMap_id_cons]
  rw [h1] at h
  simp only [List.cons.injEq, Option.some.injEq, and_true] at h
  norm_num at h

/-- C10, amended: every pre-existing column whose name is none of the
calculator's own derived column names (`SMA_{short}`, `SMA_{long}`,
resp. `Bollinger_High`, `Bollinger_Low`) is preserved element-wise; the
derived columns themselves are added, overwriting a pre-existing column
of the same name. -/
theorem other_columns_preserved (df : DataFrame) (s l w : ℕ) (k : ℝ)
    (m m2 : String)
    (hms : m ≠ "SMA_" ++ toString s) (hml : m ≠ "SMA_" ++ toString l)
    (hmh : m2 ≠ "Bollinger_High") (hmL : m2 ≠ "Bollinger_Low") :
    getCol (calculate_moving_averages df s l) m = getCol df m ∧
    getCol (calculate_bollinger_bands df w k) m2 = getCol df m2 := by
  constructor
  · rw [ma_unfold, getCol_setCol_ne _ _ _ _ hml, getCol_setCol_ne _ _ _ _ hms]
  · rw [bb_unfold, getCol_setCol_ne _ _ _ _ hmL, getCol_setCol_ne _ _ _ _ hmh]

/-- Witness for C10 (amended) at the default windows and the `Date`
column of a one-row frame. -/
theorem other_columns_preserved_witness :
    getCol (calculate_moving_averages
        [("Date", [some (1:ℝ)]), ("Close", [some 2])] 20 50) "Date"
      = getCol [("Date", [some (1:ℝ)]), ("Close", [some 2])] "Date" ∧
    getCol (calculate_bollinger_bands
        [("Date", [some (1:ℝ)]), ("Close", [some 2])] 20 2) "Date"
      = getCol [("Date", [some (1:ℝ)]), ("Close", [some 2])] "Date" :=
  other_columns_preserved [("Date", [some (1:ℝ)]), ("Close", [some 2])] 20 50 20 2
    "Date" "Date" (by decide) (by decide) (by decide) (by decide)

/-! ### C4: band ordering and the equality condition -/

lemma length_bollingerHigh (xs : Series) (w : ℕ) (k : ℝ) :
    (bollingerHighSeries xs w k).length = xs.length := by
  rw [bollingerHigh_map]
  simp

/-- C4 fails as stated for the multiplier `k = 0`, which the claim admits
(`non-negative`): on `[1, 2]` with window 2 and `k = 0` the bands coincide
at the defined position 1 even though the rolling standard deviation there
is `√(1/2) ≠ 0`, refuting `upper = lower iff std = 0`. -/
theorem bollinger_bands_equal_nonzero_std :
    (bollingerHighSeries (([1, 2] : List ℝ).map some) 2 0).getD 1 none
      = (bollingerLowSeries (([1, 2] : List ℝ).map some) 2 0).getD 1 none ∧
    (bollingerHighSeries (([1, 2] : List ℝ).map some) 2 0).getD 1 none ≠ none ∧
    rollingStdAt (([1, 2] : List ℝ).map some) 2 1 ≠ some 0 := by
  have hval : (bollingerHighSeries (([1, 2] : List ℝ).map some) 2 0).getD 1 none
      = some (3/2) := by
    norm_num [bollingerHighSeries, rollingMean, rollingStd, rollingMeanAt,
      rollingStdAt, winVals, List.range_succ, filterMap_id_cons,
      optAdd, optScale, List.getD]
  refine ⟨?_, ?_, ?_⟩
  · norm_num [bollingerHighSeries, bollingerLowSeries, rollingMean, rollingStd,
      rollingMeanAt, rollingStdAt, winVals, List.range_succ, filterMap_id_cons,
      optAdd, optSub, optScale, List.getD]
  · rw [hval]
    exact fun h => Option.noConfusion h
  · intro h
    norm_num [rollingStdAt, winVals, filterMap_id_cons, Real.sqrt_eq_zero'] at h

/-- C4, amended: for a non-negative multiplier the upper band is `≥` the
lower band at every defined position, and for a positive multiplier they
are equal exactly when the rolling standard deviation is 0; on
`[5, 5, 5, 5]` with window 2 and `k = 2` both bands equal 5 at every
defined index. -/
theorem bollinger_band_order (ps : List ℝ) (w : ℕ) (k : ℝ) (hk : 0 ≤ k)
    (i : ℕ) (u v : ℝ)
    (hu : (bollingerHighSeries (ps.map some) w k).getD i none = some u)
    (hv : (bollingerLowSeries (ps.map some) w k).getD i none = some v) :
    v ≤ u ∧
    (0 < k → (u = v ↔ rollingStdAt (ps.map some) w i = some 0)) ∧
    (bollingerHighSeries (([5, 5, 5, 5] : List ℝ).map some) 2 2
        = [none, some 5, some 5, some 5] ∧
      bollingerLowSeries (([5, 5, 5, 5] : List ℝ).map some) 2 2
        = [none, some 5, some 5, some 5]) := by
  have hi : i < (ps.map some).length := by
    by_contra hc
    push_neg at hc
    have hlen : (bollingerHighSeries (ps.map some) w k).length ≤ i := by
      rw [length_bollingerHigh]
      exact hc
    rw [List.getD_eq_getElem?_getD, List.getElem?_eq_none hlen] at hu
    exact Option.noConfusion hu
  rw [bollingerHigh_getD _ _ _ _ hi] at hu
  rw [bollingerLow_getD _ _ _ _ hi] at hv
  cases hm : rollingMeanAt (ps.map some) w i with
  | none =>
      rw [hm] at hu
      simp [optAdd] at hu
  | some μ =>
  cases hs : rollingStdAt (ps.map some) w i with
  | none =>
      rw [hm, hs] at hu
      simp [optAdd, optScale] at hu
  | some σ =>
  rw [hm, hs] at hu hv
  simp only [optAdd, optSub, optScale, Option.some_inj] at hu hv
  have hσ : 0 ≤ σ := rollingStdAt_sqrt _ _ _ _ hs
  refine ⟨?_, ?_, ?_, ?_⟩
  · rw [← hu, ← hv]
    nlinarith [mul_nonneg hσ hk]
  · intro hkpos
    constructor
    · intro huv
      rw [← hu, ← hv] at huv
      have hzero : σ * k = 0 := by linarith
      rcases mul_eq_zero.mp hzero with h0 | h0
      · rw [h0]
      · exact absurd h0 (by linarith)
    · intro h0
      rw [Option.some_inj] at h0
      rw [← hu, ← hv, h0]
      ring
  · norm_num [bollingerHighSeries, rollingMean, rollingStd, rollingMeanAt,
      rollingStdAt, winVals, List.range_succ, filterMap_id_cons,
      optAdd, optScale, Real.sqrt_zero]
  · norm_num [bollingerLowSeries, rollingMean, rollingStd, rollingMeanAt,
      rollingStdAt, winVals, List.range_succ, filterMap_id_cons,
      optSub, optScale, Real.sqrt_zero]

/-- Witness for C4 (amended) at the claim's own scenario, position 1. -/
theorem bollinger_band_order_witness :
    ((5:ℝ) ≤ 5) ∧
    (0 < (2:ℝ) →
      ((5:ℝ) = 5 ↔ rollingStdAt (([5, 5, 5, 5] : List ℝ).map some) 2 1 = some 0)) ∧
    (bollingerHighSeries (([5, 5, 5, 5] : List ℝ).map some) 2 2
        = [none, some 5, some 5, some 5] ∧
      bollingerLowSeries (([5, 5, 5, 5] : List ℝ).map some) 2 2
        = [none, some 5, some 5, some 5]) :=
  bollinger_band_order [5, 5, 5, 5] 2 2 (by norm_num) 1 5 5
    (by norm_num [bollingerHighSeries, rollingMean, rollingStd, rollingMeanAt,
      rollingStdAt, winVals, List.range_succ, filterMap_id_cons,
      optAdd, optScale, Real.sqrt_zero, List.getD])
    (by norm_num [bollingerLowSeries, rollingMean, rollingStd, rollingMeanAt,
      rollingStdAt, winVals, List.range_succ, filterMap_id_cons,
      optSub, optScale, Real.sqrt_zero, List.getD])
